import Mathlib

/-!
Verification of the mdtopdf command-line tool (src/mdtopdf.py).

The Python program is shallowly embedded: the argument-scanning loop of
`cli` becomes the recursive function `scanArgs`, the validation code after
the loop becomes `postScan`, and the orchestrator `md_to_pdf` is modelled
by its effect on the set of files present in the working directory.
External collaborators (the filesystem, the `shutil.which` lookup, and the
chromium subprocess) are parameters of an `Env` record; the set of
colorscheme names known to pygments (`get_all_styles()`) is a `List String`
parameter.
-/

namespace Mdtopdf

/-- Source constant `TMP_FILE_NAME` in src/mdtopdf.py. -/
def TMP_FILE_NAME : String := "mdtopdf_tmp_file.html"

/-- Source constant `DEFAULT_COLORSCHEME` in src/mdtopdf.py. -/
def DEFAULT_COLORSCHEME : String := "dracula"

/-- The local variables of `cli` mutated by the `while args:` scanning loop
(src/mdtopdf.py lines 162-204). -/
structure ScanState where
  helpFlag : Bool
  versionFlag : Bool
  filePath : Option String
  outputFile : Option String
  noCss : Bool
  colorscheme : Option String
deriving Repr, DecidableEq

/-- The initial values given to the loop variables (lines 162-167). -/
def initState : ScanState :=
  { helpFlag := false, versionFlag := false, filePath := none,
    outputFile := none, noCss := false, colorscheme := none }

/-- The `error(...); return 1` exits taken inside the scanning loop, one
constructor per error site. -/
inductive ScanError where
  /-- Line 178: argument expected for the -o / --output-file option. -/
  | missingOutputArg (flag : String)
  /-- Line 182: too many output files provided. -/
  | duplicateOutputFile
  /-- Line 189: argument --colorscheme: expected one argument. -/
  | missingColorschemeArg
  /-- Line 194: unknow colorscheme. -/
  | unknownColorscheme (name : String)
  /-- Line 199: unknow argument. -/
  | unknownArgument (arg : String)
  /-- Line 202: too many arguments. -/
  | tooManyArguments
deriving Repr, DecidableEq

/-- Equality test on `Except` values, used to state results of the scan. -/
instance instDecidableEqExceptResult {ε α : Type} [DecidableEq ε] [DecidableEq α] :
    DecidableEq (Except ε α) :=
  fun a b =>
    match a, b with
    | .ok x, .ok y => if h : x = y then .isTrue (by rw [h]) else .isFalse (by simp [h])
    | .error x, .error y => if h : x = y then .isTrue (by rw [h]) else .isFalse (by simp [h])
    | .ok _, .error _ => .isFalse (by simp)
    | .error _, .ok _ => .isFalse (by simp)

/-- The test `arg and arg[0] == '-'` on line 198 of src/mdtopdf.py: the
token is nonempty and its first character is the flag-prefix `-`. -/
def isFlagLike (arg : String) : Bool :=
  match arg.data with
  | [] => false
  | c :: _ => c = '-'

/-- The scanning loop of `cli` (src/mdtopdf.py lines 169-204).  Each
iteration pops the head token and dispatches on it exactly as the Python
`match arg:` does; value-taking flags pop a second token.  `styles` stands
for the pygments `get_all_styles()` enumeration consulted on line 193. -/
def scanArgs (styles : List String) : List String → ScanState → Except ScanError ScanState
  | [], st => .ok st
  | arg :: args, st =>
    if arg = "-h" ∨ arg = "--help" then
      scanArgs styles args { st with helpFlag := true }
    else if arg = "-v" ∨ arg = "--version" then
      scanArgs styles args { st with versionFlag := true }
    else if arg = "-o" ∨ arg = "--output-file" then
      match args with
      | [] => .error (.missingOutputArg arg)
      | value :: rest =>
        if st.outputFile.isSome then
          .error .duplicateOutputFile
        else
          scanArgs styles rest { st with outputFile := some value }
    else if arg = "--no-css" then
      scanArgs styles args { st with noCss := true }
    else if arg = "--colorscheme" then
      match args with
      | [] => .error .missingColorschemeArg
      | value :: rest =>
        if value ∈ styles then
          scanArgs styles rest { st with colorscheme := some value }
        else
          .error (.unknownColorscheme value)
    else
      if isFlagLike arg then
        .error (.unknownArgument arg)
      else if st.filePath.isSome then
        .error .tooManyArguments
      else
        scanArgs styles args { st with filePath := some arg }
termination_by structural l => l

/-- The external world as `cli` observes it: `os.path.isdir`,
`os.path.exists`, `shutil.which` (as a success predicate on candidate
names), and whether the chromium subprocess run by `html_to_pdf` exits
with status 0. -/
structure Env where
  isDir : String → Bool
  pathExists : String → Bool
  whichOk : String → Bool
  printerOk : Bool

/-- `find_chromium_name` (src/mdtopdf.py lines 87-94): the first of
`chromium`, `chromium-browser` found on the path, else the empty string. -/
def find_chromium_name (env : Env) : String :=
  if env.whichOk "chromium" then "chromium"
  else if env.whichOk "chromium-browser" then "chromium-browser"
  else ""

/-- Output-path derivation when no -o flag was given (lines 218-222):
strip a trailing `.md` (Python `file_path[-3:] == '.md'`) and append
`.pdf`. -/
def deriveOutput (file_path : String) : String :=
  (if file_path.takeRight 3 = ".md" then file_path.dropRight 3 else file_path) ++ ".pdf"

/-- The configuration `cli` hands to `md_to_pdf` on line 242. -/
structure FinalConfig where
  filePath : String
  outputFile : String
  noCss : Bool
  colorscheme : String
  chromium : String
deriving Repr, DecidableEq

/-- Every way an invocation of `cli` can end, one constructor per
`return` site of src/mdtopdf.py lines 149-248. -/
inductive CliOutcome where
  /-- Line 159: empty argv. -/
  | noCommandName
  /-- A `return 1` inside the scanning loop. -/
  | scanError (e : ScanError)
  /-- Lines 206-208: usage printed. -/
  | helpShown
  /-- Lines 210-212: version printed. -/
  | versionShown
  /-- Line 215: no input file provided. -/
  | noInputFile
  /-- Line 225: the input path is a directory. -/
  | isDirectory (path : String)
  /-- Line 229: the input path does not exist. -/
  | notFound (path : String)
  /-- Line 238: could not find chromium executable. -/
  | noChromium
  /-- Line 245: subprocess.CalledProcessError from md_to_pdf. -/
  | conversionFailed (cfg : FinalConfig)
  /-- Line 248: the conversion ran and returned 0. -/
  | success (cfg : FinalConfig)
deriving Repr, DecidableEq

/-- The integer `cli` returns for each outcome. -/
def exitCode : CliOutcome → Nat
  | .helpShown => 0
  | .versionShown => 0
  | .success _ => 0
  | _ => 1

/-- The code after the scanning loop (src/mdtopdf.py lines 206-248), in
source order: help, version, missing input, output derivation, directory
check, existence check, colorscheme default, chromium lookup, conversion. -/
def postScan (env : Env) (st : ScanState) : CliOutcome :=
  if st.helpFlag then .helpShown
  else if st.versionFlag then .versionShown
  else
    match st.filePath with
    | none => .noInputFile
    | some file_path =>
      let output_file :=
        match st.outputFile with
        | some o => o
        | none => deriveOutput file_path
      if env.isDir file_path then .isDirectory file_path
      else if ¬ env.pathExists file_path then .notFound file_path
      else
        let colorscheme :=
          match st.colorscheme with
          | some c => c
          | none => DEFAULT_COLORSCHEME
        let chromium := find_chromium_name env
        if chromium = "" then .noChromium
        else
          let cfg : FinalConfig :=
            { filePath := file_path, outputFile := output_file,
              noCss := st.noCss, colorscheme := colorscheme,
              chromium := chromium }
          if env.printerOk then .success cfg else .conversionFailed cfg

/-- `cli` (src/mdtopdf.py lines 149-248): pop the command name, run the
scanning loop, then the post-scan validation and conversion. -/
def cli (env : Env) (styles : List String) (args : List String) : CliOutcome :=
  match args with
  | [] => .noCommandName
  | _command_name :: rest =>
    match scanArgs styles rest initState with
    | .error e => .scanError e
    | .ok st => postScan env st

/-- `md_to_pdf` (src/mdtopdf.py lines 117-128) modelled by its effect on
the set of files present, given whether the chromium subprocess succeeds.
`md_to_html` writes `TMP_FILE_NAME`; on printer success the pdf is written
and `os.remove(TMP_FILE_NAME)` runs; on printer failure the
CalledProcessError propagates before the `os.remove` line is reached.
Returns (completed without exception, resulting file set). -/
def md_to_pdf (printerOk : Bool) (pdf_file_path : String)
    (files : String → Bool) : Bool × (String → Bool) :=
  let files1 : String → Bool := fun p => if p = TMP_FILE_NAME then true else files p
  if printerOk then
    let files2 : String → Bool := fun p => if p = pdf_file_path then true else files1 p
    (true, fun p => if p = TMP_FILE_NAME then false else files2 p)
  else
    (false, files1)

/-- An environment in which every path exists, nothing is a directory,
chromium is on the path and the printing subprocess succeeds. -/
def goodEnv : Env :=
  { isDir := fun _ => false, pathExists := fun _ => true,
    whichOk := fun _ => true, printerOk := true }

/-- An environment with one markdown file `README.md` and one directory
`test_dir`, chromium available, and printer success given by the
parameter. -/
def dirEnv (printerOk : Bool) : Env :=
  { isDir := fun p => p == "test_dir",
    pathExists := fun p => p == "README.md" || p == "test_dir",
    whichOk := fun _ => true,
    printerOk := printerOk }

/-- A token that is not flag-like is distinct from every flag alias. -/
theorem ne_of_not_flagLike {t : String} (h : isFlagLike t = false)
    (s : String) (hs : isFlagLike s = true) : ¬ t = s := by
  intro he
  rw [he, hs] at h
  exact Bool.noConfusion h

/-- One step of the scanning loop on a non-flag-like token: it is taken as
the positional input path, or rejected when one was already taken. -/
theorem scanArgs_positional (styles : List String) (t : String)
    (rest : List String) (st : ScanState) (h : isFlagLike t = false) :
    scanArgs styles (t :: rest) st =
      if st.filePath.isSome then .error .tooManyArguments
      else scanArgs styles rest { st with filePath := some t } := by
  rw [scanArgs.eq_def]
  dsimp only
  rw [if_neg (by rintro (he | he) <;> exact ne_of_not_flagLike h _ (by decide) he)]
  rw [if_neg (by rintro (he | he) <;> exact ne_of_not_flagLike h _ (by decide) he)]
  rw [if_neg (by rintro (he | he) <;> exact ne_of_not_flagLike h _ (by decide) he)]
  rw [if_neg (ne_of_not_flagLike h "--no-css" (by decide))]
  rw [if_neg (ne_of_not_flagLike h "--colorscheme" (by decide))]
  rw [if_neg (by simp [h])]

/-- One step of the scanning loop on an output-file alias when an output
file was already recorded and a value token is present: the loop stops
with the duplicate-output error (line 182). -/
theorem scanArgs_duplicate_output (styles : List String) (arg value : String)
    (rest : List String) (st : ScanState)
    (harg : arg = "-o" ∨ arg = "--output-file")
    (hdup : st.outputFile.isSome = true) :
    scanArgs styles (arg :: value :: rest) st = .error .duplicateOutputFile := by
  rcases harg with rfl | rfl <;>
    (rw [scanArgs.eq_def]; dsimp only; simp [hdup])

/-- One step of the scanning loop on `--colorscheme` with a known value:
the value is stored, overwriting any earlier one (line 192 has no
duplicate check). -/
theorem scanArgs_colorscheme_overwrite (styles : List String) (v : String)
    (rest : List String) (st : ScanState) (hv : v ∈ styles) :
    scanArgs styles ("--colorscheme" :: v :: rest) st
      = scanArgs styles rest { st with colorscheme := some v } := by
  rw [scanArgs.eq_def]
  dsimp only
  simp [hv]

/-- One step of the scanning loop on `--colorscheme` with a value outside
the known enumeration: the loop stops with the unknown-colorscheme error
(line 194), whatever the current state. -/
theorem scanArgs_unknown_colorscheme (styles : List String) (v : String)
    (rest : List String) (st : ScanState) (hv : ¬ v ∈ styles) :
    scanArgs styles ("--colorscheme" :: v :: rest) st
      = .error (.unknownColorscheme v) := by
  rw [scanArgs.eq_def]
  dsimp only
  simp [hv]

/-- C1: the claim asserts the temporary HTML file is deleted on the
failure path as well; but when the printer step fails, `md_to_pdf`
propagates the exception before reaching `os.remove`, leaving
`TMP_FILE_NAME` behind (here starting from an empty working directory). -/
theorem c1_counterexample :
    (md_to_pdf false "out.pdf" (fun _ => false)).2 TMP_FILE_NAME = true := by
  decide

/-- C1 (amended): `md_to_pdf` deletes the temporary HTML file on the
success path, but on a printer failure the exception propagates before the
`os.remove` line and the temporary HTML file is left behind. -/
theorem c1_cleanup_on_success_only (pdf : String) (files : String → Bool) :
    ((md_to_pdf true pdf files).1 = true ∧
      (md_to_pdf true pdf files).2 TMP_FILE_NAME = false) ∧
    ((md_to_pdf false pdf files).1 = false ∧
      (md_to_pdf false pdf files).2 TMP_FILE_NAME = true) := by
  refine ⟨⟨rfl, ?_⟩, rfl, ?_⟩ <;> simp [md_to_pdf]

/-- C2: contrary to the claim (and to `test_list_colorschemes` in
src/test.py), the `cli` of src/mdtopdf.py has no list-colorschemes alias:
in every environment and for every styles enumeration, the token
`--list-colorschemes` is rejected as an unknown argument with exit
code 1. -/
theorem c2_list_colorschemes_unknown (env : Env) (styles : List String) :
    cli env styles ["cli", "--list-colorschemes"]
      = .scanError (.unknownArgument "--list-colorschemes") ∧
    exitCode (.scanError (.unknownArgument "--list-colorschemes")) = 1 :=
  ⟨rfl, rfl⟩

/-- The configuration `cli` builds for input `README.md` with `-o`
naming the existing directory `test_dir`. -/
def dirOutputConfig : FinalConfig :=
  { filePath := "README.md", outputFile := "test_dir", noCss := false,
    colorscheme := DEFAULT_COLORSCHEME, chromium := "chromium" }

/-- C3: contrary to the claim (and to `test_save_to_directory` in
src/test.py), `cli` never checks whether the resolved output path names an
existing directory: with `-o test_dir` pointing at a directory it
proceeds to the conversion step, succeeding or failing only with the
printer, never with a directory diagnostic. -/
theorem c3_output_directory_unchecked (printerOk : Bool) (styles : List String) :
    cli (dirEnv printerOk) styles ["cli", "README.md", "-o", "test_dir"]
      = (if printerOk then .success dirOutputConfig
         else .conversionFailed dirOutputConfig) := by
  cases printerOk <;> rfl

/-- C4: the claim fails for the colorscheme flag: a second `--colorscheme`
occurrence with a valid value does not raise a duplicate error; the scan
succeeds and the later value (`one-dark`) replaces the earlier one
(`dracula`). -/
theorem c4_counterexample :
    scanArgs ["dracula", "one-dark"]
      ["--colorscheme", "dracula", "--colorscheme", "one-dark", "doc.md"]
      initState
      = .ok { helpFlag := false, versionFlag := false,
              filePath := some "doc.md", outputFile := none, noCss := false,
              colorscheme := some "one-dark" } := by
  decide

/-- C4 (amended): a later duplicate of the output-file flag is an error,
not an overwrite — in particular `["-o", "a", "-o", "b"]` fails with the
duplicate-output error and exit code 1 — but a second colorscheme flag
with a valid value is accepted and overwrites the earlier value. -/
theorem c4_duplicate_output_only (env : Env) (styles : List String)
    (arg value : String) (rest : List String) (st : ScanState)
    (harg : arg = "-o" ∨ arg = "--output-file")
    (hdup : st.outputFile.isSome = true)
    (v : String) (hv : v ∈ styles) (rest2 : List String) (st2 : ScanState) :
    scanArgs styles (arg :: value :: rest) st = .error .duplicateOutputFile ∧
    cli env styles ["prog", "-o", "a", "-o", "b"]
      = .scanError .duplicateOutputFile ∧
    exitCode (.scanError .duplicateOutputFile) = 1 ∧
    scanArgs styles ("--colorscheme" :: v :: rest2) st2
      = scanArgs styles rest2 { st2 with colorscheme := some v } :=
  ⟨scanArgs_duplicate_output styles arg value rest st harg hdup, rfl, rfl,
    scanArgs_colorscheme_overwrite styles v rest2 st2 hv⟩

/-- C4 witness at concrete inputs. -/
theorem c4_duplicate_output_only_witness :
    scanArgs ["dracula"] ["-o", "x", "y"]
      { initState with outputFile := some "a" }
      = .error .duplicateOutputFile ∧
    scanArgs ["dracula"] ["--colorscheme", "dracula", "doc.md"] initState
      = scanArgs ["dracula"] ["doc.md"]
          { initState with colorscheme := some "dracula" } :=
  ⟨(c4_duplicate_output_only goodEnv ["dracula"] "-o" "x" ["y"]
      { initState with outputFile := some "a" } (Or.inl rfl) rfl
      "dracula" (by decide) ["doc.md"] initState).1,
   (c4_duplicate_output_only goodEnv ["dracula"] "-o" "x" ["y"]
      { initState with outputFile := some "a" } (Or.inl rfl) rfl
      "dracula" (by decide) ["doc.md"] initState).2.2.2⟩

/-- C5: when no output flag is given the output path is the input path
with a trailing `.md` stripped and `.pdf` appended, the stripping applying
only to the markdown suffix: any non-flag-like input token `p` resolves to
output `deriveOutput p`, with `doc.md` giving `doc.pdf` and `doc.txt`
giving `doc.txt.pdf`. -/
theorem c5_output_derivation (styles : List String) (p : String)
    (hp : isFlagLike p = false) :
    cli goodEnv styles ["prog", p]
      = .success { filePath := p, outputFile := deriveOutput p,
                   noCss := false, colorscheme := DEFAULT_COLORSCHEME,
                   chromium := "chromium" } ∧
    deriveOutput "doc.md" = "doc.pdf" ∧
    deriveOutput "doc.txt" = "doc.txt.pdf" := by
  refine ⟨?_, by decide, by decide⟩
  have h1 : scanArgs styles [p] initState
      = .ok { initState with filePath := some p } := by
    rw [scanArgs_positional styles p [] initState hp]
    rfl
  rw [cli.eq_def]
  dsimp only
  rw [h1]
  rfl

/-- C5 witness at `doc.md`. -/
theorem c5_output_derivation_witness :
    cli goodEnv [] ["prog", "doc.md"]
      = .success { filePath := "doc.md", outputFile := deriveOutput "doc.md",
                   noCss := false, colorscheme := DEFAULT_COLORSCHEME,
                   chromium := "chromium" } :=
  (c5_output_derivation [] "doc.md" (by decide)).1

/-- C6: help and version short-circuit before input-file validation:
`["--help"]` alone succeeds with exit code 0; any scan state with the help
flag set short-circuits to usage whatever the environment; when the help
flag is clear and the version flag set, the version is shown; and with
both flags given, help wins (fixed priority help before version). -/
theorem c6_help_version_priority (env : Env) (styles : List String)
    (st st2 : ScanState) (hh : st.helpFlag = true)
    (hv1 : st2.helpFlag = false) (hv2 : st2.versionFlag = true) :
    cli env styles ["prog", "--help"] = .helpShown ∧
    exitCode .helpShown = 0 ∧
    postScan env st = .helpShown ∧
    postScan env st2 = .versionShown ∧
    cli env styles ["prog", "--help", "--version"] = .helpShown := by
  refine ⟨rfl, rfl, ?_, ?_, rfl⟩
  · simp [postScan, hh]
  · simp [postScan, hv1, hv2]

/-- C6 witness at concrete states. -/
theorem c6_help_version_priority_witness :
    postScan goodEnv { initState with helpFlag := true } = .helpShown ∧
    postScan goodEnv { initState with versionFlag := true } = .versionShown :=
  ⟨(c6_help_version_priority goodEnv [] { initState with helpFlag := true }
      { initState with versionFlag := true } rfl rfl rfl).2.2.1,
   (c6_help_version_priority goodEnv [] { initState with helpFlag := true }
      { initState with versionFlag := true } rfl rfl rfl).2.2.2.1⟩

/-- C7: a second positional token stops the scan with the
too-many-arguments error: in any state that already holds an input path,
the next non-flag-like token errors; consequently every token sequence
`prog a b ...` with `a` and `b` non-flag-like fails with exit code 1. -/
theorem c7_too_many_arguments (styles : List String) (t p : String)
    (rest : List String) (st : ScanState) (hfp : st.filePath = some p)
    (ht : isFlagLike t = false) (env : Env) (a b : String)
    (rest2 : List String) (ha : isFlagLike a = false)
    (hb : isFlagLike b = false) :
    scanArgs styles (t :: rest) st = .error .tooManyArguments ∧
    cli env styles ("prog" :: a :: b :: rest2) = .scanError .tooManyArguments ∧
    exitCode (.scanError .tooManyArguments) = 1 := by
  refine ⟨?_, ?_, rfl⟩
  · rw [scanArgs_positional styles t rest st ht, if_pos (by simp [hfp])]
  · rw [cli.eq_def]
    dsimp only
    rw [scanArgs_positional styles a (b :: rest2) initState ha,
        if_neg (by decide),
        scanArgs_positional styles b rest2 _ hb]
    simp

/-- C7 witness at concrete inputs. -/
theorem c7_too_many_arguments_witness :
    cli goodEnv [] ["prog", "f1", "f2"] = .scanError .tooManyArguments :=
  (c7_too_many_arguments [] "x" "a" [] { initState with filePath := some "a" }
    rfl (by decide) goodEnv "f1" "f2" [] (by decide) (by decide)).2.1

/-- C8: resolution is deterministic and idempotent.  The embedding is a
pure function of the token sequence, the styles enumeration and the
environment, so resolving equal token sequences twice yields identical
results, for the scan alone and for the whole `cli`. -/
theorem c8_resolution_deterministic (env : Env) (styles : List String)
    (args args2 : List String) (h : args = args2) :
    scanArgs styles args initState = scanArgs styles args2 initState ∧
    cli env styles args = cli env styles args2 := by
  subst h
  exact ⟨rfl, rfl⟩

/-- C8 witness at a concrete token sequence. -/
theorem c8_resolution_deterministic_witness :
    cli goodEnv [] ["prog", "doc.md"] = cli goodEnv [] ["prog", "doc.md"] :=
  (c8_resolution_deterministic goodEnv [] ["prog", "doc.md"]
    ["prog", "doc.md"] rfl).2

/-- An environment in which no path exists and nothing is a directory. -/
def noFileEnv : Env :=
  { isDir := fun _ => false, pathExists := fun _ => false,
    whichOk := fun _ => true, printerOk := true }

/-- C9: an empty token is classified as the positional input path, never
as an unknown flag: in any state the scan step on `""` either records it
as the input path or reports too-many-arguments, and `["prog", ""]` sets
the input path to `""` and then fails the existence check with the
not-found error and exit code 1 (in any environment where `""` does not
exist and is not a directory, as with a real filesystem). -/
theorem c9_empty_token_positional (styles : List String) (rest : List String)
    (st : ScanState) (env : Env) (h1 : env.isDir "" = false)
    (h2 : env.pathExists "" = false) :
    scanArgs styles ("" :: rest) st
      = (if st.filePath.isSome then .error .tooManyArguments
         else scanArgs styles rest { st with filePath := some "" }) ∧
    cli env styles ["prog", ""] = .notFound "" ∧
    exitCode (.notFound "") = 1 := by
  refine ⟨scanArgs_positional styles "" rest st (by decide), ?_, rfl⟩
  rw [cli.eq_def]
  dsimp only
  rw [scanArgs_positional styles "" [] initState (by decide),
      if_neg (by decide)]
  dsimp only [scanArgs]
  simp [postScan, initState, h1, h2]

/-- C9 witness in the environment with no files. -/
theorem c9_empty_token_positional_witness :
    cli noFileEnv [] ["prog", ""] = .notFound "" :=
  (c9_empty_token_positional [] [] initState noFileEnv rfl rfl).2.1

/-- C10: an unknown colorscheme value is rejected at scan time regardless
of styling suppression: in any state (in particular with the no-css flag
already set) the scan stops at `--colorscheme v` with `v` outside the
enumeration, and the full sequence `--no-css --colorscheme v doc.md` fails
with the unknown-colorscheme error and exit code 1. -/
theorem c10_unknown_colorscheme_despite_no_css (styles : List String)
    (st : ScanState) (rest : List String) (v : String) (hv : ¬ v ∈ styles)
    (env : Env) :
    scanArgs styles ("--colorscheme" :: v :: rest) st
      = .error (.unknownColorscheme v) ∧
    cli env styles ["prog", "--no-css", "--colorscheme", v, "doc.md"]
      = .scanError (.unknownColorscheme v) ∧
    exitCode (.scanError (.unknownColorscheme v)) = 1 := by
  refine ⟨scanArgs_unknown_colorscheme styles v rest st hv, ?_, rfl⟩
  rw [cli.eq_def]
  dsimp only
  rw [scanArgs.eq_def]
  dsimp only
  rw [if_neg (by decide), if_neg (by decide), if_neg (by decide),
      if_pos rfl,
      scanArgs_unknown_colorscheme styles v ["doc.md"] _ hv]

/-- C10 witness at a concrete unknown value. -/
theorem c10_unknown_colorscheme_despite_no_css_witness :
    cli goodEnv ["dracula"] ["prog", "--no-css", "--colorscheme", "nope", "doc.md"]
      = .scanError (.unknownColorscheme "nope") :=
  (c10_unknown_colorscheme_despite_no_css ["dracula"] initState []
    "nope" (by decide) goodEnv).2.1

end Mdtopdf
